import Mathlib

/-!
# Verification of the jpc-fundraise donation-consistency and progress subsystem

Shallow embedding of the TypeScript sources:
* `amplify/functions/stripe-webhook/handler.ts` — the Stripe webhook handler
  (sole writer of donation records);
* `src/pages/GoalPage.tsx` (`currentAmount`, `progressPercent`,
  `milestonePositions`) — the progress calculator of the public goal page;
* `src/pages/EditGoalPage.tsx` (`loadGoal`, `onSubmit`) and
  `src/pages/CreateGoalPage.tsx` (`onSubmit`) — goal creation / editing;
* `amplify/data/resource.ts` — the Goal / Milestone / Donation data model.

Currency amounts are modelled as exact rationals (`ℚ`).  Fields that the
backend auto-generates and that no verified property reads (record `id`,
`createdAt`, `updatedAt`) are omitted from the records.
-/

namespace Fundraise

/-- Donation status enum of `amplify/data/resource.ts`:
`status: a.enum(['pending', 'completed', 'failed'])`. -/
inductive DonationStatus
  | pending
  | completed
  | failed
deriving DecidableEq, Repr

/-- Donation model of `amplify/data/resource.ts` (auto-generated `id`,
`createdAt`, `updatedAt` omitted). -/
structure Donation where
  goalId : String
  amount : ℚ
  donorName : String
  message : String
  stripePaymentId : String
  status : DonationStatus
deriving DecidableEq, Repr

/-- Goal model of `amplify/data/resource.ts` (auto-generated fields omitted).
`editPassword` stores the bcrypt hash, never the plaintext. -/
structure Goal where
  id : String
  name : String
  description : String
  targetAmount : ℚ
  stripeAccountId : String
  editPassword : String
deriving DecidableEq, Repr

/-- Milestone model of `amplify/data/resource.ts` (auto-generated `id`
omitted). -/
structure Milestone where
  goalId : String
  name : String
  targetAmount : ℚ
  order : Nat
deriving DecidableEq, Repr

/-! ## Progress calculator (`src/pages/GoalPage.tsx`) -/

/-- The goal page's donation list: the `observeQuery` / `list` calls filter by
`{ goalId: { eq: goalId } }`. -/
def donationsForGoal (all : List Donation) (g : String) : List Donation :=
  all.filter (fun d => d.goalId == g)

/-- `GoalPage.tsx`:
`donations.filter((d) => d.status === 'completed').reduce((sum, d) => sum + d.amount, 0)`. -/
def currentAmount (donations : List Donation) : ℚ :=
  ((donations.filter (fun d => d.status == DonationStatus.completed)).map
    Donation.amount).sum

/-- `GoalPage.tsx`: `Math.min((currentAmount / goal.targetAmount) * 100, 100)`. -/
def progressPercent (current targetAmount : ℚ) : ℚ :=
  min (current / targetAmount * 100) 100

/-- One entry of the goal page's `milestonePositions` array:
the milestone's fields together with `position` and `reached`. -/
structure MilestonePos where
  name : String
  targetAmount : ℚ
  position : ℚ
  reached : Bool
deriving DecidableEq, Repr

/-- The `milestones.map` body of `milestonePositions`, with the mutable
`runningTotal` made an explicit accumulator:
`runningTotal += m.targetAmount; position: (runningTotal / goal.targetAmount) * 100; reached: currentAmount >= runningTotal`. -/
def milestonePositionsAux (targetAmount current : ℚ) :
    ℚ → List Milestone → List MilestonePos
  | _, [] => []
  | running, m :: ms =>
    let rt := running + m.targetAmount
    { name := m.name
      targetAmount := m.targetAmount
      position := rt / targetAmount * 100
      reached := decide (rt ≤ current) } ::
      milestonePositionsAux targetAmount current rt ms

/-- `GoalPage.tsx` `milestonePositions`: returns `[]` when the milestone list
is empty, else maps with a running total starting at 0.  The input list is the
page's milestone state, already sorted ascending by `order`. -/
def milestonePositions (goal : Goal) (milestones : List Milestone)
    (current : ℚ) : List MilestonePos :=
  if milestones.isEmpty then []
  else milestonePositionsAux goal.targetAmount current 0 milestones

/-- Cumulative threshold of the milestone at index `i`: the sum of its own
`targetAmount` and those of all milestones before it in order. -/
def cumulativeThreshold (milestones : List Milestone) (i : Nat) : ℚ :=
  ((milestones.take (i + 1)).map Milestone.targetAmount).sum

theorem milestonePositionsAux_length (t c r : ℚ) (ms : List Milestone) :
    (milestonePositionsAux t c r ms).length = ms.length := by
  induction ms generalizing r with
  | nil => rfl
  | cons m ms ih => simp [milestonePositionsAux, ih]

theorem milestonePositions_length (g : Goal) (ms : List Milestone) (c : ℚ) :
    (milestonePositions g ms c).length = ms.length := by
  unfold milestonePositions
  rcases ms with _ | ⟨m, ms⟩
  · rfl
  · simp [milestonePositionsAux_length]

theorem milestonePositionsAux_getElem (t c : ℚ) :
    ∀ (ms : List Milestone) (r : ℚ) (i : Nat) (m : Milestone),
      ms[i]? = some m →
      (milestonePositionsAux t c r ms)[i]?
        = some { name := m.name
                 targetAmount := m.targetAmount
                 position :=
                   (r + ((ms.take (i + 1)).map Milestone.targetAmount).sum)
                     / t * 100
                 reached :=
                   decide (r + ((ms.take (i + 1)).map
                     Milestone.targetAmount).sum ≤ c) } := by
  intro ms
  induction ms with
  | nil => intro r i m hm; simp at hm
  | cons m0 ms ih =>
    intro r i m hm
    cases i with
    | zero =>
      simp only [List.getElem?_cons_zero, Option.some.injEq] at hm
      subst hm
      simp [milestonePositionsAux]
    | succ j =>
      simp only [List.getElem?_cons_succ] at hm
      have hstep := ih (r + m0.targetAmount) j m hm
      simp only [milestonePositionsAux, List.getElem?_cons_succ]
      rw [hstep]
      simp [List.take_succ_cons, add_assoc]

theorem milestonePositions_getElem (g : Goal) (ms : List Milestone) (c : ℚ)
    (i : Nat) (m : Milestone) (hm : ms[i]? = some m) :
    (milestonePositions g ms c)[i]?
      = some { name := m.name
               targetAmount := m.targetAmount
               position := cumulativeThreshold ms i / g.targetAmount * 100
               reached := decide (cumulativeThreshold ms i ≤ c) } := by
  have hne : ms.isEmpty = false := by
    cases ms
    · simp at hm
    · rfl
  have := milestonePositionsAux_getElem g.targetAmount c ms 0 i m hm
  simp only [milestonePositions, hne, Bool.false_eq_true, if_false]
  simpa [cumulativeThreshold] using this

/-! ## Concrete fixtures used by witnesses and counterexamples -/

/-- A goal with `targetAmount = 3000`, matching the spec's milestone-ladder
example. -/
def gLadder : Goal :=
  { id := "goal-1", name := "Honeymoon", description := ""
    targetAmount := 3000, stripeAccountId := "acct_1"
    editPassword := "hash" }

/-- Incremental milestone amounts `[1000, 1500, 500]`, i.e. cumulative
thresholds `[1000, 2500, 3000]`. -/
def ladder : List Milestone :=
  [ { goalId := "goal-1", name := "Flights", targetAmount := 1000, order := 0 }
  , { goalId := "goal-1", name := "Hotel", targetAmount := 1500, order := 1 }
  , { goalId := "goal-1", name := "Fun", targetAmount := 500, order := 2 } ]

/-- A completed donation of 70 for goal `goal-1`. -/
def dComp70 : Donation :=
  { goalId := "goal-1", amount := 70, donorName := "Ann", message := ""
    stripePaymentId := "pi_a", status := DonationStatus.completed }

/-- A pending donation of 30 for goal `goal-1`. -/
def dPend30 : Donation :=
  { goalId := "goal-1", amount := 30, donorName := "Bob", message := ""
    stripePaymentId := "pi_b", status := DonationStatus.pending }

/-- A completed donation of 25 for a different goal `goal-2`. -/
def dOther25 : Donation :=
  { goalId := "goal-2", amount := 25, donorName := "Cid", message := ""
    stripePaymentId := "pi_c", status := DonationStatus.completed }

/-! ## Claim C3 — currentAmount is the completed-donation sum, insertion-order
independent -/

/-- C3: for every goal `g`, `currentAmount` over the goal page's donation
list equals the sum of amounts of exactly the donations with status
`completed` and `goalId = g`; pending/failed donations contribute nothing,
and the value is invariant under permutation of the donation list. -/
theorem currentAmount_completed_sum (all : List Donation) (g : String) :
    currentAmount (donationsForGoal all g)
        = ((all.filter (fun d =>
            d.status == DonationStatus.completed && d.goalId == g)).map
              Donation.amount).sum
      ∧ ∀ all' : List Donation, all.Perm all' →
          currentAmount (donationsForGoal all g)
            = currentAmount (donationsForGoal all' g) := by
  constructor
  · unfold currentAmount donationsForGoal
    rw [List.filter_filter]
  · intro all' hp
    unfold currentAmount donationsForGoal
    exact List.Perm.sum_eq (List.Perm.map _ (List.Perm.filter _
      (List.Perm.filter _ hp)))

/-- Witness for C3 at a concrete three-donation ledger and a transposition of
it: the completed 70 counts, the pending 30 and the other goal's 25 do not,
in either order. -/
theorem currentAmount_completed_sum_witness :
    ([dComp70, dPend30, dOther25].Perm [dPend30, dComp70, dOther25])
      ∧ currentAmount (donationsForGoal [dComp70, dPend30, dOther25] "goal-1")
          = currentAmount
              (donationsForGoal [dPend30, dComp70, dOther25] "goal-1")
      ∧ currentAmount (donationsForGoal [dComp70, dPend30, dOther25] "goal-1")
          = 70 := by
  refine ⟨List.Perm.swap dPend30 dComp70 [dOther25],
    (currentAmount_completed_sum [dComp70, dPend30, dOther25] "goal-1").2
      [dPend30, dComp70, dOther25]
      (List.Perm.swap dPend30 dComp70 [dOther25]), ?_⟩
  simp [currentAmount, donationsForGoal, dComp70, dPend30, dOther25]

/-! ## Claim C4 — milestone reached iff currentAmount ≥ cumulative threshold -/

/-- C4: entry `i` of the goal page's `milestonePositions` array is reported
reached iff `currentAmount` is at least the milestone's cumulative threshold
(the sum of its own `targetAmount` and those of all milestones before it);
in particular, with cumulative thresholds `[1000, 2500, 3000]`, a
`currentAmount` of 2400 reports only the first milestone reached and a
`currentAmount` of 3000 reports all three reached. -/
theorem milestone_reached_iff (g : Goal) (ms : List Milestone) (c : ℚ)
    (i : Nat) (m : Milestone) (p : MilestonePos)
    (hm : ms[i]? = some m)
    (hp : (milestonePositions g ms c)[i]? = some p) :
    (p.reached = true ↔ c ≥ cumulativeThreshold ms i)
      ∧ (milestonePositions gLadder ladder 2400).map MilestonePos.reached
          = [true, false, false]
      ∧ (milestonePositions gLadder ladder 3000).map MilestonePos.reached
          = [true, true, true] := by
  refine ⟨?_, ?_, ?_⟩
  · rw [milestonePositions_getElem g ms c i m hm] at hp
    cases hp
    simp [ge_iff_le]
  · simp [milestonePositions, milestonePositionsAux, ladder, gLadder]
    norm_num
  · simp [milestonePositions, milestonePositionsAux, ladder, gLadder]
    norm_num

/-- Witness for C4 at the ladder's second milestone with `currentAmount`
2400: the entry exists and its reached flag is governed by the cumulative
threshold 2500. -/
theorem milestone_reached_iff_witness :
    (ladder[1]? = some
        { goalId := "goal-1", name := "Hotel", targetAmount := 1500
          order := 1 })
      ∧ ((milestonePositions gLadder ladder 2400)[1]? = some
          { name := "Hotel", targetAmount := 1500, position := 2500 / 3000 * 100
            reached := decide ((2500 : ℚ) ≤ 2400) })
      ∧ ((decide ((2500 : ℚ) ≤ 2400) = true
            ↔ (2400 : ℚ) ≥ cumulativeThreshold ladder 1)) := by
  have hm : ladder[1]? = some
      { goalId := "goal-1", name := "Hotel", targetAmount := 1500
        order := 1 } := by
    simp [ladder]
  have hp : (milestonePositions gLadder ladder 2400)[1]? = some
      { name := "Hotel", targetAmount := 1500, position := 2500 / 3000 * 100
        reached := decide ((2500 : ℚ) ≤ 2400) } := by
    rw [milestonePositions_getElem gLadder ladder 2400 1 _ hm]
    norm_num [cumulativeThreshold, ladder, gLadder]
  exact ⟨hm, hp,
    by
      have h := (milestone_reached_iff gLadder ladder 2400 1 _ _ hm hp).1
      simpa using h⟩

/-! ## Claim C5 — progressPercent formula and 100-cap -/

/-- C5: for every positive target and nonnegative current amount, the goal
page's `progressPercent` equals `min(100, 100 * currentAmount / targetAmount)`
and never exceeds 100, even when `currentAmount` exceeds the target. -/
theorem progressPercent_capped (c t : ℚ) (ht : 0 < t) (hc : 0 ≤ c) :
    progressPercent c t = min 100 (100 * c / t)
      ∧ progressPercent c t ≤ 100 := by
  constructor
  · unfold progressPercent
    rw [min_comm]
    congr 1
    ring
  · exact min_le_right _ _

/-- Witness for C5 at `currentAmount = 4500`, `targetAmount = 3000` (current
exceeds the target): the formula holds and the result is capped at 100. -/
theorem progressPercent_capped_witness :
    (0 : ℚ) < 3000 ∧ (0 : ℚ) ≤ 4500
      ∧ (progressPercent 4500 3000 = min 100 (100 * 4500 / 3000)
          ∧ progressPercent 4500 3000 ≤ 100) :=
  ⟨by norm_num, by norm_num,
    progressPercent_capped 4500 3000 (by norm_num) (by norm_num)⟩

/-! ## Claim C6 — milestone marker positions (not clamped in the code) -/

/-- A goal with `targetAmount = 1000`, used to exhibit an unclamped marker
position. -/
def gSmall : Goal :=
  { id := "goal-3", name := "Trip", description := ""
    targetAmount := 1000, stripeAccountId := "acct_3"
    editPassword := "hash" }

/-- A single milestone whose `targetAmount` 1500 exceeds the goal's
`targetAmount` 1000. -/
def mBig : Milestone :=
  { goalId := "goal-3", name := "Everything", targetAmount := 1500, order := 0 }

/-- Counterexample to C6 as stated: with goal target 1000 and one milestone
of amount 1500, the computed marker position is 150, strictly above 100 —
`milestonePositions` applies no clamping to `[0, 100]`. -/
theorem milestonePosition_above_100 :
    (milestonePositions gSmall [mBig] 0).map MilestonePos.position = [150]
      ∧ ¬((150 : ℚ) ≤ 100) := by
  constructor
  · simp [milestonePositions, milestonePositionsAux, mBig, gSmall]
    norm_num
  · norm_num

/-- C6 as amended: the marker position of milestone `i` equals
`100 * cumulativeThreshold / goal.targetAmount` with no clamping applied; for
a positive target and nonnegative milestone amounts it is never below 0, but
it exceeds 100 whenever the cumulative threshold exceeds the goal's
`targetAmount`. -/
theorem milestonePosition_formula (g : Goal) (ms : List Milestone) (c : ℚ)
    (i : Nat) (m : Milestone) (p : MilestonePos)
    (hm : ms[i]? = some m)
    (hp : (milestonePositions g ms c)[i]? = some p)
    (ht : 0 < g.targetAmount)
    (hnn : ∀ x ∈ ms, 0 ≤ x.targetAmount) :
    p.position = 100 * cumulativeThreshold ms i / g.targetAmount
      ∧ 0 ≤ p.position
      ∧ (g.targetAmount < cumulativeThreshold ms i → 100 < p.position) := by
  rw [milestonePositions_getElem g ms c i m hm] at hp
  cases hp
  have hcum : 0 ≤ cumulativeThreshold ms i := by
    unfold cumulativeThreshold
    apply List.sum_nonneg
    intro x hx
    simp only [List.mem_map] at hx
    obtain ⟨y, hy, rfl⟩ := hx
    exact hnn y (List.mem_of_mem_take hy)
  refine ⟨by ring, ?_, ?_⟩
  · have : (0 : ℚ) ≤ cumulativeThreshold ms i / g.targetAmount :=
      div_nonneg hcum (le_of_lt ht)
    positivity
  · intro hlt
    have h1 : (1 : ℚ) < cumulativeThreshold ms i / g.targetAmount :=
      (one_lt_div ht).mpr hlt
    calc (100 : ℚ) = 100 * 1 := by norm_num
    _ < 100 * (cumulativeThreshold ms i / g.targetAmount) := by
        exact (mul_lt_mul_left (by norm_num)).mpr h1
    _ = cumulativeThreshold ms i / g.targetAmount * 100 := by ring

/-- Witness for the amended C6 at the unclamped fixture: the marker of the
1500-milestone on the 1000-target goal sits at 150. -/
theorem milestonePosition_formula_witness :
    (([mBig][0]? = some mBig)
        ∧ ((milestonePositions gSmall [mBig] 0)[0]? = some
            { name := "Everything", targetAmount := 1500, position := 150
              reached := decide ((1500 : ℚ) ≤ 0) })
        ∧ (0 : ℚ) < gSmall.targetAmount
        ∧ (∀ x ∈ [mBig], (0 : ℚ) ≤ x.targetAmount))
      ∧ ((150 : ℚ) = 100 * cumulativeThreshold [mBig] 0 / gSmall.targetAmount
          ∧ (0 : ℚ) ≤ (150 : ℚ)
          ∧ (gSmall.targetAmount < cumulativeThreshold [mBig] 0
              → (100 : ℚ) < 150)) := by
  have hm : [mBig][0]? = some mBig := by simp
  have hp : (milestonePositions gSmall [mBig] 0)[0]? = some
      { name := "Everything", targetAmount := 1500, position := 150
        reached := decide ((1500 : ℚ) ≤ 0) } := by
    rw [milestonePositions_getElem gSmall [mBig] 0 0 mBig hm]
    norm_num [cumulativeThreshold, mBig, gSmall]
  have ht : (0 : ℚ) < gSmall.targetAmount := by norm_num [gSmall]
  have hnn : ∀ x ∈ [mBig], (0 : ℚ) ≤ x.targetAmount := by
    intro x hx
    simp only [List.mem_singleton] at hx
    subst hx
    norm_num [mBig]
  exact ⟨⟨hm, hp, ht, hnn⟩,
    milestonePosition_formula gSmall [mBig] 0 0 mBig _ hm hp ht hnn⟩

/-! ## Stripe webhook handler (`amplify/functions/stripe-webhook/handler.ts`) -/

/-- JS string truthiness of `x || fallback` where `x` is an optional string
field: `undefined` and the empty string both fall back. -/
def jsOrElse (x : Option String) (fallback : String) : String :=
  match x with
  | none => fallback
  | some s => if s == "" then fallback else s

/-- The fields of the parsed `checkout.session` object that the handler
reads: `session.metadata.goalId / donorName / message`,
`session.amount_total` (in minor units) and `session.payment_intent`. -/
structure StripeSession where
  goalId : String
  donorName : Option String
  message : Option String
  amountTotal : ℚ
  paymentIntent : String
deriving Repr

/-- One inbound webhook request as the handler sees it after JSON parsing:
the `stripe-signature` header (if any), `stripeEvent.type` and
`stripeEvent.data.object`. -/
structure WebhookEvent where
  stripeSignature : Option String
  eventType : String
  session : StripeSession
deriving Repr

/-- The `createDonation` input object the handler builds from the session:
`amount := amount_total / 100`,
`donorName := metadata.donorName || 'Anonymous'`,
`message := metadata.message || ''`, `stripePaymentId := payment_intent`,
`status := 'completed'`. -/
def donationOfSession (s : StripeSession) : Donation :=
  { goalId := s.goalId
    amount := s.amountTotal / 100
    donorName := jsOrElse s.donorName "Anonymous"
    message := jsOrElse s.message ""
    stripePaymentId := s.paymentIntent
    status := DonationStatus.completed }

/-- The webhook `handler`: 400 when the `stripe-signature` header is missing;
otherwise, for a `checkout.session.completed` event, `createDonation` is
called with the record of `donationOfSession`; every other event type is
acknowledged with 200 and no record.  Returns the HTTP status code and the
record created, if any.  The handler never reads the value of the signature
header and never consults the existing donations. -/
def webhookHandler (e : WebhookEvent) : Nat × Option Donation :=
  match e.stripeSignature with
  | none => (400, none)
  | some _ =>
    if e.eventType == "checkout.session.completed" then
      (200, some (donationOfSession e.session))
    else (200, none)

/-- Ledger effect of one webhook delivery: `createDonation` appends a fresh
record unconditionally — there is no lookup by `stripePaymentId` and the data
schema imposes no uniqueness on it. -/
def processWebhook (ledger : List Donation) (e : WebhookEvent) :
    List Donation :=
  match (webhookHandler e).2 with
  | some d => ledger ++ [d]
  | none => ledger

/-- A well-formed completed-checkout notification for goal `goal-1`,
transaction `pi_dup`, 5000 cents. -/
def evDup : WebhookEvent :=
  { stripeSignature := some "t=1,v1=deadbeef"
    eventType := "checkout.session.completed"
    session :=
      { goalId := "goal-1", donorName := some "Ann", message := some "hi"
        amountTotal := 5000, paymentIntent := "pi_dup" } }

/-! ## Claim C1 — duplicate `providerTxnId` submissions (no dedup in code) -/

/-- Counterexample to C1 as stated: delivering the same
`checkout.session.completed` notification (transaction `pi_dup`) twice to an
empty ledger yields two records with the same `stripePaymentId`, and the
second call changes `currentAmount` from 50 to 100 — the second submission
is not a no-op. -/
theorem duplicate_txn_double_counted :
    (processWebhook (processWebhook [] evDup) evDup).length = 2
      ∧ ((processWebhook (processWebhook [] evDup) evDup).filter
          (fun d => d.stripePaymentId == "pi_dup")).length = 2
      ∧ currentAmount (donationsForGoal (processWebhook [] evDup) "goal-1")
          = 50
      ∧ currentAmount (donationsForGoal
            (processWebhook (processWebhook [] evDup) evDup) "goal-1")
          = 100 := by
  refine ⟨rfl, rfl, ?_, ?_⟩
  · simp [processWebhook, webhookHandler, evDup, jsOrElse, currentAmount,
      donationsForGoal, donationOfSession]
    norm_num
  · simp [processWebhook, webhookHandler, evDup, jsOrElse, currentAmount,
      donationsForGoal, donationOfSession]
    norm_num

/-- C1 as amended: the webhook performs no duplicate check on
`providerTxnId` — every processed completed-checkout notification appends a
fresh record to the ledger, and `currentAmount` for the record's goal grows
by the record's amount on each delivery, including redeliveries of the same
`providerTxnId`. -/
theorem webhook_append_no_dedup (ledger : List Donation) (e : WebhookEvent)
    (d : Donation) (hd : (webhookHandler e).2 = some d) :
    processWebhook ledger e = ledger ++ [d]
      ∧ currentAmount (donationsForGoal (processWebhook ledger e) d.goalId)
          = currentAmount (donationsForGoal ledger d.goalId) + d.amount := by
  have hstatus : d.status = DonationStatus.completed := by
    unfold webhookHandler at hd
    cases hsig : e.stripeSignature with
    | none => rw [hsig] at hd; exact absurd hd (by simp)
    | some s =>
      rw [hsig] at hd
      by_cases htype : e.eventType == "checkout.session.completed"
      · simp only [htype, if_true, Option.some.injEq] at hd
        rw [← hd]
        rfl
      · simp [htype] at hd
  have happ : processWebhook ledger e = ledger ++ [d] := by
    unfold processWebhook
    rw [hd]
  refine ⟨happ, ?_⟩
  rw [happ]
  unfold currentAmount donationsForGoal
  rw [List.filter_append, List.filter_append, List.map_append, List.sum_append]
  simp [hstatus]

/-- Witness for the amended C1: the `pi_dup` notification appends its record
to a singleton ledger and raises that goal's `currentAmount` by its amount. -/
theorem webhook_append_no_dedup_witness :
    ((webhookHandler evDup).2 = some (donationOfSession evDup.session))
      ∧ (processWebhook [dComp70] evDup
            = [dComp70] ++ [donationOfSession evDup.session]
        ∧ currentAmount (donationsForGoal (processWebhook [dComp70] evDup)
              (donationOfSession evDup.session).goalId)
            = currentAmount (donationsForGoal [dComp70]
                (donationOfSession evDup.session).goalId)
              + (donationOfSession evDup.session).amount) :=
  ⟨rfl, webhook_append_no_dedup [dComp70] evDup _ rfl⟩

/-! ## Claim C2 — signature verification (absent from the code) -/

/-- A notification carrying a `stripe-signature` header value that cannot be
a valid Stripe signature for any secret. -/
def evForged : WebhookEvent :=
  { stripeSignature := some "garbage-not-a-signature"
    eventType := "checkout.session.completed"
    session :=
      { goalId := "goal-1", donorName := none, message := none
        amountTotal := 12300, paymentIntent := "pi_forged" } }

/-- C2 fails on the code: the handler never verifies the signature against
any shared secret — it only tests that the header is present.  Any two
present header values are treated identically, and the forged notification
`evForged` is accepted with status 200 and creates a donation record. -/
theorem webhook_signature_never_verified :
    (∀ (e : WebhookEvent) (s₁ s₂ : String),
        webhookHandler { e with stripeSignature := some s₁ }
          = webhookHandler { e with stripeSignature := some s₂ })
      ∧ (webhookHandler evForged).1 = 200
      ∧ (webhookHandler evForged).2 = some
          { goalId := "goal-1", amount := 12300 / 100
            donorName := "Anonymous", message := ""
            stripePaymentId := "pi_forged"
            status := DonationStatus.completed }
      ∧ processWebhook [] evForged ≠ [] := by
  refine ⟨?_, rfl, rfl, ?_⟩
  · intro e s₁ s₂
    rfl
  · have hrun : processWebhook [] evForged
        = [donationOfSession evForged.session] := rfl
    rw [hrun]
    simp

/-! ## Claim C10 — webhook-created donations are completed with a donor
name -/

/-- C10: every donation record the webhook creates has status `completed`
and a non-empty `donorName` (a missing or empty metadata donor name is
stored as `"Anonymous"`); consequently the record contributes its amount to
`currentAmount` and appears in the completed-donations feed. -/
theorem webhook_creates_completed_named (e : WebhookEvent) (d : Donation)
    (hd : (webhookHandler e).2 = some d) :
    d.status = DonationStatus.completed
      ∧ d.donorName ≠ ""
      ∧ ∀ ledger : List Donation,
          currentAmount (ledger ++ [d]) = currentAmount ledger + d.amount
            ∧ d ∈ (ledger ++ [d]).filter
                (fun x => x.status == DonationStatus.completed) := by
  have hde : d = donationOfSession e.session := by
    unfold webhookHandler at hd
    cases hsig : e.stripeSignature with
    | none => rw [hsig] at hd; exact absurd hd (by simp)
    | some s =>
      rw [hsig] at hd
      by_cases htype : e.eventType == "checkout.session.completed"
      · simp only [htype, if_true, Option.some.injEq] at hd
        exact hd.symm
      · simp [htype] at hd
  have hstatus : d.status = DonationStatus.completed := by
    rw [hde]; rfl
  have hname : d.donorName ≠ "" := by
    rw [hde]
    show jsOrElse e.session.donorName "Anonymous" ≠ ""
    unfold jsOrElse
    cases e.session.donorName with
    | none => decide
    | some s =>
      by_cases hs : s == ""
      · simp [hs]
      · show (if (s == "") = true then "Anonymous" else s) ≠ ""
        rw [if_neg hs]
        simpa using hs
  refine ⟨hstatus, hname, ?_⟩
  intro ledger
  constructor
  · unfold currentAmount
    rw [List.filter_append, List.map_append, List.sum_append]
    simp [hstatus]
  · rw [List.mem_filter]
    exact ⟨List.mem_append_right _ (List.mem_singleton_self d), by
      simp [hstatus]⟩

/-- Witness for C10 at a notification with no donor name in the metadata:
the created record is completed, named `"Anonymous"`, counts toward
`currentAmount`, and appears in the completed feed. -/
theorem webhook_creates_completed_named_witness :
    ((webhookHandler evForged).2 = some (donationOfSession evForged.session))
      ∧ (donationOfSession evForged.session).donorName = "Anonymous"
      ∧ ((donationOfSession evForged.session).status
            = DonationStatus.completed
        ∧ (donationOfSession evForged.session).donorName ≠ ""
        ∧ ∀ ledger : List Donation,
            currentAmount (ledger ++ [donationOfSession evForged.session])
                = currentAmount ledger
                  + (donationOfSession evForged.session).amount
              ∧ donationOfSession evForged.session
                  ∈ (ledger ++ [donationOfSession evForged.session]).filter
                    (fun x => x.status == DonationStatus.completed)) :=
  ⟨rfl, rfl, webhook_creates_completed_named evForged _ rfl⟩

/-! ## Goal creation and editing (`CreateGoalPage.tsx`, `EditGoalPage.tsx`)

The GraphQL write calls (`Goal.update`, `Milestone.delete`,
`Milestone.create`) can each fail independently; the two `Promise.all`
batches attempt every call of the batch and reject when any call rejected.
The per-call outcomes are modelled by the Boolean oracles `updateOk`,
`deleteOk` and `createOk`. -/

/-- The validated form payload (`GoalFormData` of the zod `goalSchema`):
name, description, target amount, and the submitted milestone
`(name, targetAmount)` pairs in display order. -/
structure GoalFormData where
  name : String
  description : String
  targetAmount : ℚ
  milestones : List (String × ℚ)
deriving Repr

/-- `totalMilestoneAmount`: the last entry of `milestoneRunningTotals`
(`|| 0` for an empty list), i.e. the sum of the submitted milestone
amounts. -/
def totalMilestoneAmount (data : GoalFormData) : ℚ :=
  (data.milestones.map Prod.snd).sum

/-- The edit page's stored view of one goal: the goal record plus its
milestones, kept sorted ascending by `order` (`existingMilestones`). -/
structure Store where
  goal : Goal
  milestones : List Milestone
deriving Repr

/-- Outcomes of the edit flow, per the spec's error taxonomy. -/
inductive EditResult
  | notFound
  | invalidSecret
  | validationFailed
  | saved
  | error
deriving DecidableEq, Repr

/-- The milestones still stored after the delete batch: row `i` of
`existingMilestones` is removed iff its `Milestone.delete` call succeeded
(`deleteOk i`); a rejected delete leaves its row in place. -/
def survivors (deleteOk : Nat → Bool) : Nat → List Milestone → List Milestone
  | _, [] => []
  | i, m :: ms =>
    if deleteOk i then survivors deleteOk (i + 1) ms
    else m :: survivors deleteOk (i + 1) ms

/-- The milestones inserted by the create batch: entry `j` of the submitted
list becomes a record with `order := j` iff its `Milestone.create` call
succeeded (`createOk j`). -/
def createdMilestones (gid : String) (createOk : Nat → Bool) :
    Nat → List (String × ℚ) → List Milestone
  | _, [] => []
  | j, e :: rest =>
    if createOk j then
      { goalId := gid, name := e.1, targetAmount := e.2, order := j }
        :: createdMilestones gid createOk (j + 1) rest
    else createdMilestones gid createOk (j + 1) rest

/-- The full replacement list: what the create batch installs when every
create succeeds — the submitted milestones with `order :=` their index. -/
def newMilestones (gid : String) : Nat → List (String × ℚ) → List Milestone
  | _, [] => []
  | j, e :: rest =>
    { goalId := gid, name := e.1, targetAmount := e.2, order := j }
      :: newMilestones gid (j + 1) rest

/-- The `Goal.update` payload applied to the stored goal: name, description
and targetAmount are overwritten from the form. -/
def updatedGoal (store : Store) (data : GoalFormData) : Goal :=
  { store.goal with
    name := data.name
    description := data.description
    targetAmount := data.targetAmount }

/-- `EditGoalPage.tsx` `onSubmit`.  In source order:
1. if `Math.abs(totalMilestoneAmount - watchedTarget) > 0.01`, show the
   mismatch warning and return before any write;
2. `Goal.update` with the submitted name/description/targetAmount;
3. `Promise.all` of `Milestone.delete` over `existingMilestones` — every
   delete is attempted, and the batch rejects when any of them rejected;
4. only if every delete succeeded, `Promise.all` of `Milestone.create` over
   the submitted list with `order := index`.
A rejection anywhere lands in the `catch` block: the error is reported but
the writes already performed stay committed. -/
def editSave (store : Store) (data : GoalFormData) (updateOk : Bool)
    (deleteOk createOk : Nat → Bool) : Store × EditResult :=
  if |totalMilestoneAmount data - data.targetAmount| > 1 / 100 then
    (store, EditResult.validationFailed)
  else if updateOk = false then
    (store, EditResult.error)
  else if (List.range store.milestones.length).all deleteOk = false then
    ({ goal := updatedGoal store data
       milestones := survivors deleteOk 0 store.milestones },
      EditResult.error)
  else
    ({ goal := updatedGoal store data
       milestones := survivors deleteOk 0 store.milestones
         ++ createdMilestones store.goal.id createOk 0 data.milestones },
      if (List.range data.milestones.length).all createOk then
        EditResult.saved
      else EditResult.error)

/-- `bcrypt.compare(presented, stored)` for a stored hash produced by
`bcrypt.hash(secret)`: the presented secret is hashed again and compared
with the stored hash.  The hash function is a parameter of the model
(bcryptjs is an external library). -/
def bcryptCompare (hash : String → String) (presented stored : String) :
    Bool :=
  hash presented == stored

/-- `CreateGoalPage.tsx` `onSubmit` (goal record only): the goal is created
with `editPassword :=` the bcrypt hash of the freshly generated edit
secret; the plaintext secret only ever appears in the edit URL. -/
def createGoal (hash : String → String) (gid nm descr : String) (target : ℚ)
    (acct secret : String) : Goal :=
  { id := gid, name := nm, description := descr, targetAmount := target
    stripeAccountId := acct, editPassword := hash secret }

/-- `EditGoalPage.tsx`: `loadGoal` resolves the goal (`NotFound` when
missing), checks `bcrypt.compare(password, result.data.editPassword)` and
aborts with the invalid-password error before any edit is possible;
a valid secret reaches the edit form, whose save is `editSave`. -/
def editFlow (hash : String → String) (store : Store)
    (goalId presented : String) (data : GoalFormData) (updateOk : Bool)
    (deleteOk createOk : Nat → Bool) : Store × EditResult :=
  if (store.goal.id == goalId) = false then (store, EditResult.notFound)
  else if bcryptCompare hash presented store.goal.editPassword = false then
    (store, EditResult.invalidSecret)
  else editSave store data updateOk deleteOk createOk

theorem survivors_sublist (ok : Nat → Bool) :
    ∀ (ms : List Milestone) (i : Nat), (survivors ok i ms).Sublist ms := by
  intro ms
  induction ms with
  | nil => intro i; simp [survivors]
  | cons m ms ih =>
    intro i
    unfold survivors
    cases h : ok i
    · rw [if_neg (by simp [h])]
      exact (ih (i + 1)).cons₂ m
    · rw [if_pos (by simp [h])]
      exact (ih (i + 1)).cons m

theorem survivors_eq_nil (ok : Nat → Bool) :
    ∀ (ms : List Milestone) (i : Nat),
      (∀ k, k < ms.length → ok (i + k) = true) →
      survivors ok i ms = [] := by
  intro ms
  induction ms with
  | nil => intro i _; rfl
  | cons m ms ih =>
    intro i h
    have h0 : ok i = true := by simpa using h 0 (Nat.succ_pos _)
    unfold survivors
    rw [if_pos h0]
    refine ih (i + 1) (fun k hk => ?_)
    have h' := h (k + 1) (Nat.succ_lt_succ hk)
    have heq : i + (k + 1) = i + 1 + k := by omega
    rwa [heq] at h'

theorem createdMilestones_sublist (gid : String) (ok : Nat → Bool) :
    ∀ (entries : List (String × ℚ)) (j : Nat),
      (createdMilestones gid ok j entries).Sublist
        (newMilestones gid j entries) := by
  intro entries
  induction entries with
  | nil => intro j; simp [createdMilestones, newMilestones]
  | cons e rest ih =>
    intro j
    unfold createdMilestones newMilestones
    cases h : ok j
    · rw [if_neg (by simp [h])]
      exact (ih (j + 1)).cons _
    · rw [if_pos (by simp [h])]
      exact (ih (j + 1)).cons₂ _

theorem createdMilestones_eq_new (gid : String) (ok : Nat → Bool) :
    ∀ (entries : List (String × ℚ)) (j : Nat),
      (∀ k, k < entries.length → ok (j + k) = true) →
      createdMilestones gid ok j entries = newMilestones gid j entries := by
  intro entries
  induction entries with
  | nil => intro j _; rfl
  | cons e rest ih =>
    intro j h
    have h0 : ok j = true := by simpa using h 0 (Nat.succ_pos _)
    unfold createdMilestones newMilestones
    rw [if_pos h0]
    congr 1
    refine ih (j + 1) (fun k hk => ?_)
    have h' := h (k + 1) (Nat.succ_lt_succ hk)
    have heq : j + (k + 1) = j + 1 + k := by omega
    rwa [heq] at h'

theorem range_all_iff (ok : Nat → Bool) (n : Nat) :
    (List.range n).all ok = true ↔ ∀ k, k < n → ok k = true := by
  simp [List.all_eq_true, List.mem_range]

/-! ## Claim C7 — milestone-sum validation rejects without writing -/

/-- C7: when the submitted milestone amounts differ from the goal's target
by more than the absolute epsilon 0.01, the edit save returns the
validation failure and performs no write: the stored goal and the stored
milestones are returned exactly as they were. -/
theorem validation_mismatch_no_write (store : Store) (data : GoalFormData)
    (u : Bool) (dok cok : Nat → Bool)
    (h : |totalMilestoneAmount data - data.targetAmount| > 1 / 100) :
    editSave store data u dok cok = (store, EditResult.validationFailed) := by
  unfold editSave
  rw [if_pos h]

/-- A form whose single 50-milestone misses the 100 target by 50. -/
def dataMismatch : GoalFormData :=
  { name := "Trip", description := "", targetAmount := 100
    milestones := [("Flights", 50)] }

/-- Witness for C7: the 50-vs-100 mismatch is over the epsilon, the call
reports validation failure, and the store (goal and milestones) is
unchanged. -/
theorem validation_mismatch_no_write_witness :
    (|totalMilestoneAmount dataMismatch - dataMismatch.targetAmount|
        > 1 / 100)
      ∧ editSave { goal := gSmall, milestones := [mBig] } dataMismatch true
            (fun _ => true) (fun _ => true)
          = ({ goal := gSmall, milestones := [mBig] },
              EditResult.validationFailed) :=
  ⟨by norm_num [totalMilestoneAmount, dataMismatch],
    validation_mismatch_no_write _ _ _ _ _
      (by norm_num [totalMilestoneAmount, dataMismatch])⟩

/-! ## Claim C8 — milestone replacement is not atomic in the code -/

/-- Stored goal for the replacement fixtures, target 100. -/
def gEdit : Goal :=
  { id := "goal-8", name := "Boat", description := "", targetAmount := 100
    stripeAccountId := "acct_8", editPassword := "hash8" }

/-- First stored milestone of `gEdit`. -/
def mOldA : Milestone :=
  { goalId := "goal-8", name := "OldA", targetAmount := 60, order := 0 }

/-- Second stored milestone of `gEdit`. -/
def mOldB : Milestone :=
  { goalId := "goal-8", name := "OldB", targetAmount := 40, order := 1 }

/-- The stored state before the edit: goal `gEdit` with two milestones. -/
def storeEdit : Store := { goal := gEdit, milestones := [mOldA, mOldB] }

/-- A valid replacement submission: two milestones summing exactly to the
100 target. -/
def dataEdit : GoalFormData :=
  { name := "Boat", description := "", targetAmount := 100
    milestones := [("NewA", 70), ("NewB", 30)] }

/-- Delete oracle for the counterexample: the delete of row 0 succeeds and
the delete of row 1 fails. -/
def dokCE : Nat → Bool := fun i => i == 0

/-- Counterexample to C8 as stated: with stored milestones
`[mOldA, mOldB]` and a valid submission of two new milestones, an execution
in which the delete of row 0 succeeds and the delete of row 1 fails leaves
the store holding exactly `[mOldB]` — neither the previous list nor the new
list — so the operation is not all-or-nothing. -/
theorem editSave_interrupted_delete :
    ((editSave storeEdit dataEdit true dokCE (fun _ => true)).1.milestones
        = [mOldB])
      ∧ [mOldB] ≠ storeEdit.milestones
      ∧ [mOldB] ≠ newMilestones storeEdit.goal.id 0 dataEdit.milestones
      ∧ (editSave storeEdit dataEdit true dokCE (fun _ => true)).2
          = EditResult.error := by
  have hrun : editSave storeEdit dataEdit true dokCE (fun _ => true)
      = ({ goal := updatedGoal storeEdit dataEdit, milestones := [mOldB] },
          EditResult.error) := by
    unfold editSave
    rw [if_neg (by norm_num [totalMilestoneAmount, dataEdit])]
    rw [if_neg (by simp)]
    rw [if_pos (by decide)]
    simp [storeEdit, survivors, dokCE]
  refine ⟨by rw [hrun], ?_, ?_, by rw [hrun]⟩
  · simp [storeEdit, mOldA, mOldB]
  · simp [newMilestones, storeEdit, dataEdit, mOldB]

/-- C8 as amended: the replacement is not transactional, but (a) the
resulting milestone list is always either a sublist of the previously
stored milestones or a sublist of the submitted replacement list — an
outcome never holds surviving old milestones together with newly inserted
ones, because the creates run only after every delete succeeded — and (b)
in the failure-free execution the previous milestones are superseded and
the submitted list is installed in full, with result `saved`. -/
theorem editSave_replacement (store : Store) (data : GoalFormData)
    (u : Bool) (dok cok : Nat → Bool) :
    ((editSave store data u dok cok).1.milestones.Sublist store.milestones
      ∨ (editSave store data u dok cok).1.milestones.Sublist
          (newMilestones store.goal.id 0 data.milestones))
    ∧ (|totalMilestoneAmount data - data.targetAmount| ≤ 1 / 100 →
        u = true →
        (∀ i, i < store.milestones.length → dok i = true) →
        (∀ j, j < data.milestones.length → cok j = true) →
        (editSave store data u dok cok).1.milestones
            = newMilestones store.goal.id 0 data.milestones
          ∧ (editSave store data u dok cok).2 = EditResult.saved) := by
  constructor
  · unfold editSave
    by_cases hv : |totalMilestoneAmount data - data.targetAmount| > 1 / 100
    · rw [if_pos hv]
      exact Or.inl (List.Sublist.refl _)
    · rw [if_neg hv]
      by_cases hu : u = false
      · rw [if_pos hu]
        exact Or.inl (List.Sublist.refl _)
      · rw [if_neg hu]
        by_cases hdel : (List.range store.milestones.length).all dok = false
        · rw [if_pos hdel]
          exact Or.inl (survivors_sublist dok store.milestones 0)
        · rw [if_neg hdel]
          have htrue : (List.range store.milestones.length).all dok
              = true := by
            cases hcase : ((List.range store.milestones.length).all dok) with
            | false => exact absurd hcase hdel
            | true => rfl
          have hall : ∀ k, k < store.milestones.length → dok k = true :=
            (range_all_iff dok store.milestones.length).mp htrue
          have hsurv : survivors dok 0 store.milestones = [] :=
            survivors_eq_nil dok store.milestones 0
              (fun k hk => by simpa using hall k hk)
          refine Or.inr ?_
          simp only [hsurv, List.nil_append]
          exact createdMilestones_sublist store.goal.id cok data.milestones 0
  · intro h1 h2 h3 h4
    have hdel : (List.range store.milestones.length).all dok = true :=
      (range_all_iff dok store.milestones.length).mpr h3
    have hcre : (List.range data.milestones.length).all cok = true :=
      (range_all_iff cok data.milestones.length).mpr h4
    have hsurv : survivors dok 0 store.milestones = [] :=
      survivors_eq_nil dok store.milestones 0
        (fun k hk => by simpa using h3 k hk)
    have hnew : createdMilestones store.goal.id cok 0 data.milestones
        = newMilestones store.goal.id 0 data.milestones :=
      createdMilestones_eq_new store.goal.id cok data.milestones 0
        (fun k hk => by simpa using h4 k hk)
    unfold editSave
    rw [if_neg (not_lt.mpr h1), if_neg (by simp [h2]),
      if_neg (by simp [hdel]), hsurv, hnew]
    exact ⟨by simp, by simp [hcre]⟩

/-- Delete/create oracle in which every call succeeds. -/
def okAll : Nat → Bool := fun _ => true

/-- Witness for the amended C8: in the failure-free execution on the
`storeEdit` fixture, the submitted two-milestone list is installed in full
and the save succeeds. -/
theorem editSave_replacement_witness :
    (|totalMilestoneAmount dataEdit - dataEdit.targetAmount| ≤ 1 / 100)
      ∧ ((editSave storeEdit dataEdit true okAll okAll).1.milestones
            = newMilestones storeEdit.goal.id 0 dataEdit.milestones
          ∧ (editSave storeEdit dataEdit true okAll okAll).2
              = EditResult.saved) :=
  ⟨by norm_num [totalMilestoneAmount, dataEdit],
    (editSave_replacement storeEdit dataEdit true okAll okAll).2
      (by norm_num [totalMilestoneAmount, dataEdit]) rfl
      (fun i _ => rfl) (fun j _ => rfl)⟩

/-! ## Claim C9 — wrong edit secret is rejected without mutation -/

/-- C9: for an injective hash, presenting any secret other than the one the
goal was created with makes the edit flow stop at the recompute-and-compare
check with `invalidSecret`, returning the store — goal and milestones —
completely unchanged. -/
theorem wrong_secret_no_mutation (hash : String → String)
    (hinj : Function.Injective hash) (gid nm descr acct : String)
    (target : ℚ) (ms : List Milestone) (secret presented : String)
    (data : GoalFormData) (u : Bool) (dok cok : Nat → Bool)
    (hne : presented ≠ secret) :
    editFlow hash
        { goal := createGoal hash gid nm descr target acct secret
          milestones := ms }
        gid presented data u dok cok
      = ({ goal := createGoal hash gid nm descr target acct secret
           milestones := ms }, EditResult.invalidSecret) := by
  unfold editFlow
  have hcmp : bcryptCompare hash presented
      (createGoal hash gid nm descr target acct secret).editPassword
      = false := by
    unfold bcryptCompare createGoal
    simp only [beq_eq_false_iff_ne, ne_eq]
    intro hcontra
    exact hne (hinj hcontra)
  rw [if_neg (by simp [createGoal]), if_pos hcmp]

/-- Witness for C9 with the injective hash `fun s => s`: presenting
`"wrong"` for a goal created with secret `"edit-secret"` yields
`invalidSecret` and the untouched store. -/
theorem wrong_secret_no_mutation_witness :
    (("wrong" : String) ≠ "edit-secret")
      ∧ editFlow (fun s => s)
          { goal := createGoal (fun s => s) "goal-9" "Car" "" 500 "acct_9"
                      "edit-secret"
            milestones := [] }
          "goal-9" "wrong" dataMismatch true okAll okAll
        = ({ goal := createGoal (fun s => s) "goal-9" "Car" "" 500 "acct_9"
                       "edit-secret"
             milestones := [] }, EditResult.invalidSecret) :=
  ⟨by decide,
    wrong_secret_no_mutation (fun s => s) (fun a b h => h) "goal-9" "Car" ""
      "acct_9" 500 [] "edit-secret" "wrong" dataMismatch true okAll okAll
      (by decide)⟩

end Fundraise
